import Mathlib

/-!
A shallow embedding of the `pyexchange` OKEX client library
(`pyexchange/model.py` and `pyexchange/okex.py`).

Pure computations of the Python source are translated into executable Lean
definitions: bytes are naturals below 256, Python `int` is `Int`, the external
fixed-point numeric type is modelled per its specification, and fallible code
returns `Except`.  The HTTP transport is external: client methods that issue a
request are modelled as functions of the transport's response.
-/

namespace PyExchange

set_option maxRecDepth 10000

/-! ## Bytes and UTF-8 (Python `bytes(s, encoding='utf-8')`) -/

/-- UTF-8 encoding of a single Unicode code point. -/
def utf8Bytes (c : Nat) : List Nat :=
  if c < 0x80 then [c]
  else if c < 0x800 then [0xC0 + c / 64, 0x80 + c % 64]
  else if c < 0x10000 then [0xE0 + c / 4096, 0x80 + c / 64 % 64, 0x80 + c % 64]
  else [0xF0 + c / 262144, 0x80 + c / 4096 % 64, 0x80 + c / 64 % 64, 0x80 + c % 64]

/-- The UTF-8 bytes of a string, as Python's `bytes(s, encoding='utf-8')`. -/
def strBytes (s : String) : List Nat :=
  s.data.flatMap (fun c => utf8Bytes c.toNat)

/-- Python `str.upper` on the ASCII strings the client passes it
(`'GET'`/`'POST'`). -/
def pyUpper (s : String) : String := String.mk (s.data.map Char.toUpper)

/-! ## SHA-256 (the `digestmod='sha256'` primitive used by `hmac.new`) -/

/-- Truncation to a 32-bit word. -/
def w32 (n : Nat) : Nat := n % 2 ^ 32

/-- Right rotation of a 32-bit word by `n` bits. -/
def rotr (n x : Nat) : Nat := w32 (x / 2 ^ n + x % 2 ^ n * 2 ^ (32 - n))

/-- SHA-256 choice function. -/
def ch (e f g : Nat) : Nat := (e &&& f) ^^^ ((0xffffffff ^^^ e) &&& g)

/-- SHA-256 majority function. -/
def maj (a b c : Nat) : Nat := (a &&& b) ^^^ (a &&& c) ^^^ (b &&& c)

/-- SHA-256 big sigma-0. -/
def bigSigma0 (a : Nat) : Nat := rotr 2 a ^^^ rotr 13 a ^^^ rotr 22 a

/-- SHA-256 big sigma-1. -/
def bigSigma1 (e : Nat) : Nat := rotr 6 e ^^^ rotr 11 e ^^^ rotr 25 e

/-- SHA-256 small sigma-0. -/
def smallSigma0 (x : Nat) : Nat := rotr 7 x ^^^ rotr 18 x ^^^ x / 2 ^ 3

/-- SHA-256 small sigma-1. -/
def smallSigma1 (x : Nat) : Nat := rotr 17 x ^^^ rotr 19 x ^^^ x / 2 ^ 10

/-- The 64 SHA-256 round constants, in decimal: the fractional parts of the
cube roots of the first 64 primes, scaled to 32 bits (FIPS 180-4; pinned by
the known-answer tests below). -/
def K256 : List Nat :=
  [1116352408, 1899447441, 3049323471, 3921009573, 961987163, 1508970993,
   2453635748, 2870763221, 3624381080, 310598401, 607225278, 1426881987,
   1925078388, 2162078206, 2614888103, 3248222580, 3835390401, 4022224774,
   264347078, 604807628, 770255983, 1249150122, 1555081692, 1996064986,
   2554220882, 2821834349, 2952996808, 3210313671, 3336571891, 3584528711,
   113926993, 338241895, 666307205, 773529912, 1294757372, 1396182291,
   1695183700, 1986661051, 2177026350, 2456956037, 2730485921, 2820302411,
   3259730800, 3345764771, 3516065817, 3600352804, 4094571909, 275423344,
   430227734, 506948616, 659060556, 883997877, 958139571, 1322822218,
   1537002063, 1747873779, 1955562222, 2024104815, 2227730452, 2361852424,
   2428436474, 2756734187, 3204031479, 3329325298]

/-- The SHA-256 initial hash state, in decimal: the fractional parts of the
square roots of the first 8 primes, scaled to 32 bits. -/
def sha256H0 : List Nat :=
  [1779033703, 3144134277, 1013904242, 2773480762,
   1359893119, 2600822924, 528734635, 1541459225]

/-- Big-endian byte representation of `n`, `k` bytes wide. -/
def beBytes (k n : Nat) : List Nat :=
  match k with
  | 0 => []
  | k + 1 => beBytes k (n / 256) ++ [n % 256]

/-- SHA-256 padding: append `0x80`, zeros, and the 64-bit big-endian bit length,
reaching a multiple of 64 bytes. -/
def sha256Pad (m : List Nat) : List Nat :=
  m ++ [0x80] ++ List.replicate ((64 - (m.length + 9) % 64) % 64) 0 ++ beBytes 8 (8 * m.length)

/-- The `i`-th big-endian 32-bit word of a byte block. -/
def blockWord (bs : List Nat) (i : Nat) : Nat :=
  bs.getD (4 * i) 0 * 2 ^ 24 + bs.getD (4 * i + 1) 0 * 2 ^ 16 +
    bs.getD (4 * i + 2) 0 * 2 ^ 8 + bs.getD (4 * i + 3) 0

/-- The 64-entry SHA-256 message schedule of one 64-byte block. -/
def sha256Schedule (block : List Nat) : List Nat :=
  (List.range 64).foldl
    (fun ws t =>
      if t < 16 then ws ++ [blockWord block t]
      else ws ++ [w32 (smallSigma1 (ws.getD (t - 2) 0) + ws.getD (t - 7) 0 +
                       smallSigma0 (ws.getD (t - 15) 0) + ws.getD (t - 16) 0)])
    []

/-- One SHA-256 round on the 8-word working state. -/
def sha256Round (k w : Nat) (s : List Nat) : List Nat :=
  let a := s.getD 0 0
  let b := s.getD 1 0
  let c := s.getD 2 0
  let d := s.getD 3 0
  let e := s.getD 4 0
  let f := s.getD 5 0
  let g := s.getD 6 0
  let h := s.getD 7 0
  let t1 := w32 (h + bigSigma1 e + ch e f g + k + w)
  let t2 := w32 (bigSigma0 a + maj a b c)
  [w32 (t1 + t2), a, b, c, w32 (d + t1), e, f, g]

/-- SHA-256 compression of one 64-byte block into the hash state. -/
def sha256Compress (hs : List Nat) (block : List Nat) : List Nat :=
  let ws := sha256Schedule block
  let s := (List.range 64).foldl (fun s t => sha256Round (K256.getD t 0) (ws.getD t 0) s) hs
  List.zipWith (fun x y => w32 (x + y)) hs s

/-- SHA-256 of a byte string, as a 32-byte digest. -/
def sha256 (m : List Nat) : List Nat :=
  let p := sha256Pad m
  let hs := (List.range (p.length / 64)).foldl
    (fun hs i => sha256Compress hs ((p.drop (64 * i)).take 64)) sha256H0
  hs.flatMap (beBytes 4)

/-- HMAC-SHA256, as Python's `hmac.new(key, msg, digestmod='sha256').digest()`. -/
def hmacSha256 (key msg : List Nat) : List Nat :=
  let k0 := if 64 < key.length then sha256 key else key
  let k := k0 ++ List.replicate (64 - k0.length) 0
  let ipad := k.map (fun b => b ^^^ 0x36)
  let opad := k.map (fun b => b ^^^ 0x5c)
  sha256 (opad ++ sha256 (ipad ++ msg))

/-! ## Base64 (Python `base64.b64encode`) -/

/-- The base64 alphabet. -/
def b64Alphabet : List Char :=
  "ABCDEFGHIJKLMNOPQRSTUVWXYZabcdefghijklmnopqrstuvwxyz0123456789+/".data

/-- The base64 character for a 6-bit value. -/
def b64Char (n : Nat) : Char := b64Alphabet.getD n 'A'

/-- Base64 encoding of a byte string, as Python's `base64.b64encode`. -/
def b64encode : List Nat → String
  | [] => ""
  | [a] => String.mk [b64Char (a / 4), b64Char (a % 4 * 16), '=', '=']
  | [a, b] => String.mk [b64Char (a / 4), b64Char (a % 4 * 16 + b / 16), b64Char (b % 16 * 4), '=']
  | a :: b :: c :: rest =>
      String.mk [b64Char (a / 4), b64Char (a % 4 * 16 + b / 16),
                 b64Char (b % 16 * 4 + c / 64), b64Char (c % 64)] ++ b64encode rest

/-! ## Python-side serialization of request parameters -/

/-- Parameter dictionaries of the client: insertion-ordered maps from string
keys to string values, which is all the client ever builds. -/
abbrev Params := List (String × String)

/-- Python `str()` of a dict of strings: `\x7b'k': 'v', ...\x7d`.  This is the
serialization `_http_post` passes to `_okex_header` for signing. -/
def pyStrDict (ps : Params) : String :=
  "\x7b" ++
    String.intercalate ", "
      (ps.map (fun kv => "\x27" ++ kv.1 ++ "\x27: \x27" ++ kv.2 ++ "\x27")) ++
    "\x7d"

/-- An uppercase hexadecimal digit. -/
def hexDigit (n : Nat) : Char := "0123456789ABCDEF".data.getD n '0'

/-- Percent-encoding of one byte. -/
def percentByte (b : Nat) : String := String.mk ['%', hexDigit (b / 16), hexDigit (b % 16)]

/-- `urllib.parse.quote_plus` on one character: ASCII alphanumerics and
`_.-~` kept, space mapped to `+`, everything else percent-encoded by UTF-8
byte. -/
def quotePlusChar (c : Char) : String :=
  if c.isAlpha ∨ c.isDigit ∨ c = '_' ∨ c = '.' ∨ c = '-' ∨ c = '~' then String.singleton c
  else if c = ' ' then "+"
  else String.join ((utf8Bytes c.toNat).map percentByte)

/-- `urllib.parse.quote_plus` on a string. -/
def quotePlus (s : String) : String := String.join (s.data.map quotePlusChar)

/-- `urllib.parse.urlencode`: the serialization `_http_post` sends as the HTTP
request body (`data=urllib.parse.urlencode(params)`). -/
def urlencode (ps : Params) : String :=
  String.intercalate "&" (ps.map (fun kv => quotePlus kv.1 ++ "=" ++ quotePlus kv.2))

/-! ## Request signing (`OKEXApi._okex_header`, `_create_signature`) -/

/-- The message signed by `_okex_header`:
`str(timestamp) + str.upper(method) + request_path + body`. -/
def okexMessage (timestamp method request_path body : String) : String :=
  timestamp ++ pyUpper method ++ request_path ++ body

/-- The `OK-ACCESS-SIGN` value computed by `_okex_header`:
`base64.b64encode(hmac.new(secret_key, message, digestmod='sha256').digest())`. -/
def okexSign (secret_key timestamp method request_path body : String) : String :=
  b64encode (hmacSha256 (strBytes secret_key)
    (strBytes (okexMessage timestamp method request_path body)))

/-- The headers built by `OKEXApi._okex_header` for a given server timestamp. -/
def okex_header (secret_key api_key passphrase timestamp method request_path body : String) :
    Params :=
  [("Content-Type", "application/json"),
   ("OK-ACCESS-KEY", api_key),
   ("OK-ACCESS-SIGN", okexSign secret_key timestamp method request_path body),
   ("OK-ACCESS-TIMESTAMP", timestamp),
   ("OK-ACCESS-PASSPHRASE", passphrase)]

/-- The resource of `_http_get`: `resource?params` when `params` is nonempty. -/
def http_get_resource (resource params : String) : String :=
  if params ≠ "" then resource ++ "?" ++ params else resource

/-- The message `_http_get` signs: a GET is signed with the empty body
(`_okex_header('GET', resource)` with the default `body=""`). -/
def http_get_message (timestamp resource params : String) : String :=
  okexMessage timestamp "GET" (http_get_resource resource params) ""

/-- The HTTP body `_http_post` actually sends: `urllib.parse.urlencode(params)`. -/
def http_post_sent_body (ps : Params) : String := urlencode ps

/-- The body string `_http_post` signs: `str(params)`, the Python dict repr
passed to `_okex_header('POST', resource, str(params))`. -/
def http_post_signed_body (ps : Params) : String := pyStrDict ps

/-- The message `_http_post` signs for a POST request. -/
def http_post_message (timestamp resource : String) (ps : Params) : String :=
  okexMessage timestamp "POST" resource (http_post_signed_body ps)

/-- `OKEXApi._create_signature` (the standalone helper, not called by
`_okex_header`): `body` is the Python `str()` of the body argument, and a body
printing as `\x7b\x7d` or `None` is replaced by the empty string before
signing. -/
def create_signature (timestamp method request_path body secret_key : String) : String :=
  let body := if body = "\x7b\x7d" ∨ body = "None" then "" else body
  b64encode (hmacSha256 (strBytes secret_key)
    (strBytes (timestamp ++ pyUpper method ++ request_path ++ body)))

/-! ## Domain model (`pyexchange/model.py`, `Order`/`Trade` of `okex.py`) -/

/-- Modelled from the spec: the fixed-point numeric type `Wad` comes from the
external `pymaker` package, which is not under `src/`; the spec excludes it as
a collaborator and treats it as a given primitive with exact decimal semantics
(exact arithmetic, reciprocal, and equality by exact value), so it is modelled
by the exact rationals. -/
abbrev Wad := ℚ

/-- Modelled from the spec: `str()` of a `Wad`, the exact decimal string the
collaborator renders prices and sizes as; its precise text is external, so the
rational's canonical rendering stands in for it. -/
def wadStr (w : Wad) : String :=
  if w.den = 1 then toString w.num else toString w.num ++ "/" ++ toString w.den

/-- One order-book level (`BookItem` of `model.py`). -/
structure BookItem where
  price : Wad
  amount : Wad
deriving DecidableEq

/-- `BookItem.inverse`: `price = 1/price`, `amount = amount * price`. -/
def BookItem.inverse (i : BookItem) : BookItem :=
  ⟨1 / i.price, i.amount * i.price⟩

/-- An order book (`Book` of `model.py`). -/
structure Book where
  bids : List BookItem
  asks : List BookItem
deriving DecidableEq

/-- `Book.inverse`: bids from the inverted asks, asks from the inverted bids. -/
def Book.inverse (b : Book) : Book :=
  ⟨b.asks.map BookItem.inverse, b.bids.map BookItem.inverse⟩

/-- `Order` of `okex.py`. -/
structure Order where
  order_id : Int
  timestamp : Int
  pair : String
  is_sell : Bool
  price : Wad
  amount : Wad
  deal_amount : Wad
deriving DecidableEq

/-- `Order.remaining_buy_amount`. -/
def Order.remaining_buy_amount (o : Order) : Wad :=
  if o.is_sell then (o.amount - o.deal_amount) * o.price else o.amount - o.deal_amount

/-- `Order.remaining_sell_amount`. -/
def Order.remaining_sell_amount (o : Order) : Wad :=
  if o.is_sell then o.amount - o.deal_amount else (o.amount - o.deal_amount) * o.price

/-- `Order.__eq__`: equality by `order_id` and `pair` only. -/
def Order.eq (a b : Order) : Bool :=
  a.order_id == b.order_id && a.pair == b.pair

/-- `Trade` of `okex.py`. -/
structure Trade where
  trade_id : Int
  timestamp : Int
  is_sell : Bool
  price : Wad
  amount : Wad
  amount_symbol : String
deriving DecidableEq

/-! ## JSON values and the Python primitives applied to them -/

/-- Parsed JSON values as delivered by `requests.Response.json()`.  Numbers are
restricted to integers, which is all these endpoints carry. -/
inductive JVal where
  | null
  | bool (b : Bool)
  | num (n : Int)
  | str (s : String)
  | arr (elems : List JVal)
  | obj (fields : List (String × JVal))

/-- Whether `pat` occurs as a substring of `s` (Python `pat in s` on strings). -/
def strContainsSub (s pat : String) : Bool :=
  (List.range (s.data.length + 1)).any (fun i => pat.data.isPrefixOf (s.data.drop i))

/-- Python `x in data` on a parsed JSON value: key membership on a dict,
element membership on a list, substring on a string; `none` models the
`TypeError` Python raises on the remaining types. -/
def pyContains (v : JVal) (x : String) : Option Bool :=
  match v with
  | .obj fs => some (fs.any (fun kv => kv.1 == x))
  | .arr es => some (es.any (fun e => match e with | .str s => s == x | _ => false))
  | .str s => some (strContainsSub s x)
  | _ => none

/-- The distinct failure modes of the client: one constructor per `raise` site
of `okex.py` plus the exceptions Python itself raises while indexing and
converting response fields. -/
inductive ApiError where
  | invalidHttpResponse
  | invalidJsonResponse
  | negativeResponse
  | keyError (key : String)
  | valueError
  | typeError
  | unsupported (msg : String)
deriving DecidableEq

/-- Python `data[key]` on a parsed JSON value: `KeyError` when the key is
missing from a dict, `TypeError` when string-indexing a non-dict. -/
def jIndex (v : JVal) (key : String) : Except ApiError JVal :=
  match v with
  | .obj fs =>
      match fs.find? (fun kv => kv.1 == key) with
      | some kv => .ok kv.2
      | none => .error (.keyError key)
  | _ => .error .typeError

/-- The digits value of a character list, `none` unless nonempty and all
decimal digits. -/
def digitsVal (ds : List Char) : Option Nat :=
  if ds = [] then none
  else if ds.all Char.isDigit then
    some (ds.foldl (fun a c => 10 * a + (c.toNat - 48)) 0)
  else none

/-- Python `int(s)` on a decimal string: an optional sign then digits,
`ValueError` otherwise.  (Python also strips whitespace and allows inner
underscores; neither case arises in this client.) -/
def parseIntStr (s : String) : Option Int :=
  match s.data with
  | '-' :: ds => (digitsVal ds).map (fun n => -(n : Int))
  | '+' :: ds => (digitsVal ds).map (fun n => (n : Int))
  | ds => (digitsVal ds).map (fun n => (n : Int))

/-- Python `int(x)` on a parsed JSON value: integers pass through, booleans
are 1 and 0, strings are parsed (`ValueError` on failure), and the remaining
types raise `TypeError`. -/
def pyInt (v : JVal) : Except ApiError Int :=
  match v with
  | .num n => .ok n
  | .bool b => .ok (if b then 1 else 0)
  | .str s =>
      match parseIntStr s with
      | some n => .ok n
      | none => .error .valueError
  | _ => .error .typeError

/-! ## The exchange client (`OKEXApi`) -/

/-- What the client sees of one transport response: `ok` is
`requests.Response.ok` (transport-level success), `json` is the parsed body,
`none` when `Response.json()` raises. -/
structure HttpResp where
  ok : Bool
  json : Option JVal

namespace OKEXApi

/-- `OKEXApi._result`: reject a non-success HTTP status, reject an unparsable
body, and — when `check_result` — reject a body containing `error_code`;
otherwise return the parsed data. -/
def result (result : HttpResp) (check_result : Bool) : Except ApiError JVal :=
  if !result.ok then .error .invalidHttpResponse
  else
    match result.json with
    | none => .error .invalidJsonResponse
    | some data =>
      if check_result then
        match pyContains data "error_code" with
        | none => .error .typeError
        | some true => .error .negativeResponse
        | some false => .ok data
      else .ok data

/-- `OKEXApi.place_order`: the first component is the POST resource and params
it sends, the second the processing of the transport's response —
`order_id = int(result['order_id'])`, then `int(result['result'])`, returning
the order id. -/
def place_order (pair : String) (is_sell : Bool) (price amount : Wad)
    (resp : HttpResp) : (String × Params) × Except ApiError Int :=
  (("/api/spot/v3/orders",
    [("instrument_id", pair),
     ("side", if is_sell then "sell" else "buy"),
     ("type", "limit"),
     ("price", wadStr price),
     ("size", wadStr amount)]),
   do
     let data ← result resp true
     let v ← jIndex data "order_id"
     let order_id ← pyInt v
     let rv ← jIndex data "result"
     let _ ← pyInt rv
     pure order_id)

/-- `OKEXApi.cancel_order`: the first component is the POST resource and params
it sends, the second the processing of the transport's response —
`success = int(result['order_id']) == order_id`. -/
def cancel_order (pair : String) (order_id : Int) (resp : HttpResp) :
    (String × Params) × Except ApiError Bool :=
  ((s!"/api/spot/v3/cancel_orders/{order_id}", [("instrument_id", pair)]),
   do
     let data ← result resp true
     let v ← jIndex data "order_id"
     let n ← pyInt v
     pure (n == order_id))

/-- `OKEXApi.get_trades`: raises before doing anything; the first component is
the list of HTTP requests issued (none). -/
def get_trades (pair : String) (page_number : Int) :
    List (String × String) × Except ApiError (List Trade) :=
  ([], .error (.unsupported "get_trades() not available for OKEX"))

/-- `OKEXApi.get_all_trades`: raises before doing anything; the first component
is the list of HTTP requests issued (none). -/
def get_all_trades (pair : String) (page_number : Int) :
    List (String × String) × Except ApiError (List Trade) :=
  ([], .error (.unsupported "get_trades() not available for OKEX"))

end OKEXApi

/-! ## Sanity: known-answer tests for the hash primitives -/

/-- FIPS 180-4 known-answer test: SHA-256 of `"abc"`. -/
lemma sha256_abc_kat : sha256 (strBytes "abc") =
    [0xba, 0x78, 0x16, 0xbf, 0x8f, 0x01, 0xcf, 0xea, 0x41, 0x41, 0x40, 0xde,
     0x5d, 0xae, 0x22, 0x23, 0xb0, 0x03, 0x61, 0xa3, 0x96, 0x17, 0x7a, 0x9c,
     0xb4, 0x10, 0xff, 0x61, 0xf2, 0x00, 0x15, 0xad] := by decide

/-- Known-answer test for base64 of HMAC-SHA256, matching
`base64.b64encode(hmac.new(b'key', msg, digestmod='sha256').digest())`. -/
lemma hmac_b64_kat : b64encode (hmacSha256 (strBytes "key")
    (strBytes "The quick brown fox jumps over the lazy dog")) =
    "97yD9DBThCSxMpjmqm+xQ+9NWaFJRhdZl0edvC0aPNg=" := by decide

/-! ## Helper lemmas -/

/-- `Except` bind on a success is application. -/
lemma exceptBind_ok {ε α β : Type} (a : α) (f : α → Except ε β) :
    (Except.ok a : Except ε α) >>= f = f a := rfl

/-- `Except` bind on an error propagates the error. -/
lemma exceptBind_err {ε α β : Type} (e : ε) (f : α → Except ε β) :
    (Except.error e : Except ε α) >>= f = Except.error e := rfl

/-- `pure` into `Except` is `Except.ok`. -/
lemma exceptPure {ε α : Type} (a : α) : (pure a : Except ε α) = Except.ok a := rfl

/-- Inverting a level twice is the identity when its price is nonzero. -/
lemma BookItem.inverse_inverse (i : BookItem) (h : i.price ≠ 0) :
    i.inverse.inverse = i := by
  cases i with
  | mk p a =>
    simp only [BookItem.inverse, BookItem.mk.injEq]
    constructor
    · exact one_div_one_div p
    · rw [mul_one_div]
      exact mul_div_cancel_right₀ a h

/-- Inverting every level of a list twice is the identity when all prices are
nonzero. -/
lemma map_inverse_inverse (l : List BookItem) (h : ∀ i ∈ l, i.price ≠ 0) :
    (l.map BookItem.inverse).map BookItem.inverse = l := by
  induction l with
  | nil => rfl
  | cons x xs ih =>
    simp only [List.map_cons, List.cons.injEq]
    exact ⟨BookItem.inverse_inverse x (h x (by simp)),
           ih (fun i hi => h i (by simp [hi]))⟩

/-! ## The claims -/

/-- C1: the claim says the body signed for a POST is the same serialized
payload sent as the HTTP request body.  It is not: `_http_post` sends
`urllib.parse.urlencode(params)` but signs `str(params)` (the Python dict
repr), so at the concrete params of a cancel request the message signed
differs from `timestamp + uppercase(method) + request_path + sent body`. -/
theorem http_post_signs_different_body_than_sent :
    http_post_signed_body [("instrument_id", "btc-usdt")] =
      "\x7b\x27instrument_id\x27: \x27btc-usdt\x27\x7d" ∧
    http_post_sent_body [("instrument_id", "btc-usdt")] = "instrument_id=btc-usdt" ∧
    http_post_message "2018-10-12T00:00:00.000Z" "/api/spot/v3/orders"
        [("instrument_id", "btc-usdt")] ≠
      okexMessage "2018-10-12T00:00:00.000Z" "POST" "/api/spot/v3/orders"
        (http_post_sent_body [("instrument_id", "btc-usdt")]) := by
  refine ⟨by decide, by decide, by decide⟩

/-- C2: `get_trades` and `get_all_trades` fail with the unsupported-operation
error for every input, issue no HTTP request (the issued-request list is
empty), and never return normally. -/
theorem get_trades_always_unsupported (pair : String) (page_number : Int) :
    OKEXApi.get_trades pair page_number =
      ([], .error (.unsupported "get_trades() not available for OKEX")) ∧
    OKEXApi.get_all_trades pair page_number =
      ([], .error (.unsupported "get_trades() not available for OKEX")) ∧
    (∀ ts, (OKEXApi.get_trades pair page_number).2 ≠ Except.ok ts) ∧
    (∀ ts, (OKEXApi.get_all_trades pair page_number).2 ≠ Except.ok ts) := by
  refine ⟨rfl, rfl, fun ts h => ?_, fun ts h => ?_⟩ <;> exact Except.noConfusion h

/-- C2 witness: at concrete inputs both methods return the unsupported error
and an empty issued-request list. -/
theorem get_trades_always_unsupported_witness :
    OKEXApi.get_trades "btc-usdt" 1 =
      ([], .error (.unsupported "get_trades() not available for OKEX")) ∧
    OKEXApi.get_all_trades "btc-usdt" 1 =
      ([], .error (.unsupported "get_trades() not available for OKEX")) :=
  ⟨(get_trades_always_unsupported "btc-usdt" 1).1,
   (get_trades_always_unsupported "btc-usdt" 1).2.1⟩

/-- C3: `BookItem.inverse` maps a level to `(1/price, amount*price)`, and for
a level with nonzero price, inverting twice returns the original level
exactly. -/
theorem bookItem_inverse_involutive (i : BookItem) (h : i.price ≠ 0) :
    i.inverse = ⟨1 / i.price, i.amount * i.price⟩ ∧ i.inverse.inverse = i :=
  ⟨rfl, BookItem.inverse_inverse i h⟩

/-- C3 witness: the level with price 2 and amount 5 round-trips through two
inversions. -/
theorem bookItem_inverse_involutive_witness :
    (⟨2, 5⟩ : BookItem).price ≠ 0 ∧ (⟨2, 5⟩ : BookItem).inverse.inverse = ⟨2, 5⟩ :=
  ⟨by decide, (bookItem_inverse_involutive ⟨2, 5⟩ (by decide)).2⟩

/-- C4: `Book.inverse` swaps the bids and asks sequences, inverting each
level, and inverting twice reconstructs the original bids and asks in the
original order, not swapped. -/
theorem book_inverse_involutive (b : Book)
    (hb : ∀ i ∈ b.bids, i.price ≠ 0) (ha : ∀ i ∈ b.asks, i.price ≠ 0) :
    b.inverse = ⟨b.asks.map BookItem.inverse, b.bids.map BookItem.inverse⟩ ∧
      b.inverse.inverse = b := by
  refine ⟨rfl, ?_⟩
  cases b with
  | mk bids asks =>
    simp only [Book.inverse, Book.mk.injEq]
    exact ⟨map_inverse_inverse bids hb, map_inverse_inverse asks ha⟩

/-- C4 witness: a one-bid one-ask book round-trips through two inversions. -/
theorem book_inverse_involutive_witness :
    (∀ i ∈ (Book.mk [⟨2, 3⟩] [⟨4, 5⟩]).bids, i.price ≠ 0) ∧
    (∀ i ∈ (Book.mk [⟨2, 3⟩] [⟨4, 5⟩]).asks, i.price ≠ 0) ∧
    (Book.mk [⟨2, 3⟩] [⟨4, 5⟩]).inverse.inverse = Book.mk [⟨2, 3⟩] [⟨4, 5⟩] := by
  refine ⟨by decide, by decide, ?_⟩
  exact (book_inverse_involutive _ (by decide) (by decide)).2

/-- C5: the remaining buy amount is `(amount - deal_amount) * price` for a
sell order and `amount - deal_amount` otherwise, the remaining sell amount
the other way round; for a sell order with amount 10, deal amount 3 and
price 2, the remaining sell amount is 7 and the remaining buy amount 14. -/
theorem order_remaining_amounts :
    (∀ o : Order,
      o.remaining_buy_amount =
        (if o.is_sell then (o.amount - o.deal_amount) * o.price
         else o.amount - o.deal_amount) ∧
      o.remaining_sell_amount =
        (if o.is_sell then o.amount - o.deal_amount
         else (o.amount - o.deal_amount) * o.price)) ∧
    (Order.mk 1 0 "btc-usdt" true 2 10 3).remaining_sell_amount = 7 ∧
    (Order.mk 1 0 "btc-usdt" true 2 10 3).remaining_buy_amount = 14 :=
  ⟨fun _ => ⟨rfl, rfl⟩,
   by norm_num [Order.remaining_sell_amount],
   by norm_num [Order.remaining_buy_amount]⟩

/-- C8: two orders are equal exactly when their `order_id` and `pair` agree;
in particular two orders agreeing there but differing in timestamp, side,
price, amount and deal amount are equal. -/
theorem order_eq_iff_id_and_pair :
    (∀ a b : Order, Order.eq a b = true ↔ a.order_id = b.order_id ∧ a.pair = b.pair) ∧
    Order.eq (Order.mk 7 100 "eth-usdt" false 5 50 0)
        (Order.mk 7 999 "eth-usdt" true 6 60 1) = true := by
  constructor
  · intro a b
    simp [Order.eq]
  · decide

/-- C8 witness: a further concrete pair of orders differing everywhere but in
id and pair compare equal, by the characterization. -/
theorem order_eq_iff_id_and_pair_witness :
    Order.eq (Order.mk 3 1 "btc-usdt" false 1 2 0)
        (Order.mk 3 2 "btc-usdt" true 9 8 7) = true :=
  (order_eq_iff_id_and_pair.1 _ _).mpr ⟨rfl, rfl⟩

/-- C10: `_create_signature` replaces a body whose string form is exactly
`\x7b\x7d` or `None` by the empty string before signing, so its signature
equals the one computed with an empty body, for every timestamp, method,
path and secret key. -/
theorem create_signature_collapses_empty_body
    (timestamp method request_path body secret_key : String)
    (h : body = "\x7b\x7d" ∨ body = "None") :
    create_signature timestamp method request_path body secret_key =
      create_signature timestamp method request_path "" secret_key := by
  rcases h with h | h <;> subst h <;> rfl

/-- C10 witness: the signature of the body printing as `\x7b\x7d` equals the
empty-body signature at concrete inputs. -/
theorem create_signature_collapses_empty_body_witness :
    (("\x7b\x7d" : String) = "\x7b\x7d" ∨ ("\x7b\x7d" : String) = "None") ∧
    create_signature "2018-10-12T00:00:00.000Z" "POST" "/api/spot/v3/orders"
        "\x7b\x7d" "secret" =
      create_signature "2018-10-12T00:00:00.000Z" "POST" "/api/spot/v3/orders"
        "" "secret" :=
  ⟨Or.inl rfl,
   create_signature_collapses_empty_body "2018-10-12T00:00:00.000Z" "POST"
     "/api/spot/v3/orders" "\x7b\x7d" "secret" (Or.inl rfl)⟩

/-- C6: `cancel_order` returns the boolean comparison of the order id echoed
in the server's response with the requested one, and returns false rather
than failing when they differ. -/
theorem cancel_order_echoes_requested_id (pair : String) (order_id : Int)
    (resp : HttpResp) (data v : JVal) (n : Int)
    (hres : OKEXApi.result resp true = .ok data)
    (hv : jIndex data "order_id" = .ok v)
    (hn : pyInt v = .ok n) :
    (OKEXApi.cancel_order pair order_id resp).2 = .ok (n == order_id) ∧
    (n ≠ order_id → (OKEXApi.cancel_order pair order_id resp).2 = .ok false) := by
  have h1 : (OKEXApi.cancel_order pair order_id resp).2 = .ok (n == order_id) := by
    simp only [OKEXApi.cancel_order, hres, exceptBind_ok, hv, hn, exceptPure]
  refine ⟨h1, fun hne => ?_⟩
  rw [h1, beq_eq_false_iff_ne.mpr hne]

/-- C6 witness: a response echoing order id 5 against requested id 7 yields
`false`, not an error. -/
theorem cancel_order_echoes_requested_id_witness :
    (OKEXApi.cancel_order "btc-usdt" 7
        ⟨true, some (JVal.obj [("order_id", JVal.str "5")])⟩).2 = .ok false := by
  have h := cancel_order_echoes_requested_id "btc-usdt" 7
      ⟨true, some (JVal.obj [("order_id", JVal.str "5")])⟩
      (JVal.obj [("order_id", JVal.str "5")]) (JVal.str "5") 5 rfl rfl rfl
  exact h.2 (by decide)

/-- C7: a successful `place_order` returns exactly the integer order id
contained in the server's response body, and when the body lacks an
integer-convertible `order_id` field the call fails with an error instead of
returning. -/
theorem place_order_returns_server_order_id :
    (∀ (pair : String) (is_sell : Bool) (price amount : Wad) (resp : HttpResp) (n : Int),
        (OKEXApi.place_order pair is_sell price amount resp).2 = .ok n →
        ∃ data v, OKEXApi.result resp true = .ok data ∧
          jIndex data "order_id" = .ok v ∧ pyInt v = .ok n) ∧
    (∀ (pair : String) (is_sell : Bool) (price amount : Wad) (resp : HttpResp)
        (data : JVal) (e : ApiError),
        OKEXApi.result resp true = .ok data →
        (do let v ← jIndex data "order_id"; pyInt v) = Except.error e →
        ∃ e2, (OKEXApi.place_order pair is_sell price amount resp).2 = .error e2) := by
  constructor
  · intro pair is_sell price amount resp n h
    simp only [OKEXApi.place_order] at h
    cases hres : OKEXApi.result resp true with
    | error e => rw [hres, exceptBind_err] at h; exact Except.noConfusion h
    | ok data =>
      simp only [hres, exceptBind_ok] at h
      cases hv : jIndex data "order_id" with
      | error e => rw [hv, exceptBind_err] at h; exact Except.noConfusion h
      | ok v =>
        simp only [hv, exceptBind_ok] at h
        cases hn : pyInt v with
        | error e => rw [hn, exceptBind_err] at h; exact Except.noConfusion h
        | ok m =>
          simp only [hn, exceptBind_ok] at h
          cases hrv : jIndex data "result" with
          | error e => rw [hrv, exceptBind_err] at h; exact Except.noConfusion h
          | ok rv =>
            simp only [hrv, exceptBind_ok] at h
            cases hri : pyInt rv with
            | error e => rw [hri, exceptBind_err] at h; exact Except.noConfusion h
            | ok k =>
              simp only [hri, exceptBind_ok, exceptPure, Except.ok.injEq] at h
              exact ⟨data, v, rfl, hv, by rw [hn, h]⟩
  · intro pair is_sell price amount resp data e hres hchain
    cases hv : jIndex data "order_id" with
    | error e1 =>
      refine ⟨e1, ?_⟩
      simp only [OKEXApi.place_order, hres, exceptBind_ok, hv, exceptBind_err]
    | ok v =>
      cases hn : pyInt v with
      | error e2 =>
        refine ⟨e2, ?_⟩
        simp only [OKEXApi.place_order, hres, exceptBind_ok, hv, hn, exceptBind_err]
      | ok m =>
        rw [hv, exceptBind_ok, hn] at hchain
        exact Except.noConfusion hchain

/-- C7 witness: a response carrying order id 42 makes `place_order` return 42,
an id read from the response body. -/
theorem place_order_returns_server_order_id_witness :
    ∃ data v,
      OKEXApi.result
          ⟨true, some (JVal.obj [("order_id", JVal.str "42"), ("result", JVal.bool true)])⟩
          true = .ok data ∧
      jIndex data "order_id" = .ok v ∧ pyInt v = .ok 42 :=
  place_order_returns_server_order_id.1 "btc-usdt" false 1 1
    ⟨true, some (JVal.obj [("order_id", JVal.str "42"), ("result", JVal.bool true)])⟩
    42 rfl

/-- C9: `_result` fails on a non-success transport status, fails on an
unparsable body, fails when result checking is requested and the parsed body
contains an `error_code` field, and otherwise returns the parsed data. -/
theorem result_validates_response (resp : HttpResp) (check_result : Bool) :
    (resp.ok = false → OKEXApi.result resp check_result = .error .invalidHttpResponse) ∧
    (resp.ok = true → resp.json = none →
      OKEXApi.result resp check_result = .error .invalidJsonResponse) ∧
    (∀ data, resp.ok = true → resp.json = some data → check_result = true →
      pyContains data "error_code" = some true →
      OKEXApi.result resp check_result = .error .negativeResponse) ∧
    (∀ data, resp.ok = true → resp.json = some data →
      (check_result = false ∨ pyContains data "error_code" = some false) →
      OKEXApi.result resp check_result = .ok data) := by
  refine ⟨fun h => ?_, fun h hj => ?_, fun data h hj hc he => ?_, fun data h hj hd => ?_⟩
  · simp [OKEXApi.result, h]
  · simp [OKEXApi.result, h, hj]
  · simp [OKEXApi.result, h, hj, hc, he]
  · rcases hd with hd | hd
    · simp [OKEXApi.result, h, hj, hd]
    · by_cases hc : check_result <;> simp [OKEXApi.result, h, hj, hc, hd]

/-- C9 witness: a success status with a parsed body free of `error_code`
yields the parsed data under result checking. -/
theorem result_validates_response_witness :
    pyContains (JVal.obj [("best_ask", JVal.str "1")]) "error_code" = some false ∧
    OKEXApi.result ⟨true, some (JVal.obj [("best_ask", JVal.str "1")])⟩ true =
      .ok (JVal.obj [("best_ask", JVal.str "1")]) :=
  ⟨rfl,
   (result_validates_response ⟨true, some (JVal.obj [("best_ask", JVal.str "1")])⟩ true).2.2.2
     (JVal.obj [("best_ask", JVal.str "1")]) rfl rfl (Or.inr rfl)⟩

end PyExchange
